import Mathlib

/-!
Verification development for the BotBudget repository.

We shallowly embed the date arithmetic (`datetime.date` + `timedelta`),
the recurring-payment repository and service, the budget threshold logic,
the expense service and repository aggregates, the Excel export grouping,
and the reminder scheduler job, and prove the specified properties.

Numeric amounts (Python floats holding money values) are modelled as `ℚ`;
all the threshold comparisons at stake are exact at the claimed inputs.
-/

set_option maxRecDepth 10000

namespace BotBudget

/-! ### Calendar model (Python `datetime.date` semantics)

A `PyDate` is a Gregorian calendar date.  `addDays`/`subDays` model
`date + timedelta(days=n)` / `date - timedelta(days=n)`, and `toOrdinal`
models `date.toordinal()` (day 1 is 0001-01-01). -/

def isLeap (y : Nat) : Bool :=
  (y % 4 == 0 && y % 100 != 0) || (y % 400 == 0)

def daysInMonth (y m : Nat) : Nat :=
  match m with
  | 2 => if isLeap y then 29 else 28
  | 4 => 30
  | 6 => 30
  | 9 => 30
  | 11 => 30
  | _ => 31

structure PyDate where
  year : Nat
  month : Nat
  day : Nat
deriving DecidableEq

def isValidDate (d : PyDate) : Prop :=
  1 ≤ d.year ∧ 1 ≤ d.month ∧ d.month ≤ 12 ∧ 1 ≤ d.day ∧ d.day ≤ daysInMonth d.year d.month

instance (d : PyDate) : Decidable (isValidDate d) := by
  unfold isValidDate; infer_instance

/-- Successor date (the next calendar day). -/
def nextDay (d : PyDate) : PyDate :=
  if d.day < daysInMonth d.year d.month then ⟨d.year, d.month, d.day + 1⟩
  else if d.month < 12 then ⟨d.year, d.month + 1, 1⟩
  else ⟨d.year + 1, 1, 1⟩

/-- Predecessor date (the previous calendar day). -/
def prevDay (d : PyDate) : PyDate :=
  if 1 < d.day then ⟨d.year, d.month, d.day - 1⟩
  else if 1 < d.month then ⟨d.year, d.month - 1, daysInMonth d.year (d.month - 1)⟩
  else ⟨d.year - 1, 12, 31⟩

/-- `d + timedelta(days := n)`. -/
def addDays (d : PyDate) : Nat → PyDate
  | 0 => d
  | n + 1 => nextDay (addDays d n)

/-- `d - timedelta(days := n)`. -/
def subDays (d : PyDate) : Nat → PyDate
  | 0 => d
  | n + 1 => prevDay (subDays d n)

/-- Date comparison `d1 <= d2` (Python compares dates chronologically,
which for valid dates is the lexicographic year/month/day order). -/
def dateLe (a b : PyDate) : Prop :=
  a.year < b.year ∨ (a.year = b.year ∧ (a.month < b.month ∨ (a.month = b.month ∧ a.day ≤ b.day)))

instance : DecidableRel dateLe := fun a b => by unfold dateLe; infer_instance

def dateLeB (a b : PyDate) : Bool := decide (dateLe a b)

theorem dateLe_refl (a : PyDate) : dateLe a a := by unfold dateLe; omega

theorem dateLe_trans {a b c : PyDate} (h1 : dateLe a b) (h2 : dateLe b c) : dateLe a c := by
  unfold dateLe at *; omega

theorem dateLe_total (a b : PyDate) : dateLe a b ∨ dateLe b a := by
  unfold dateLe; omega

/-- Cumulative day count of the months before month `m` in year `y`. -/
def daysBeforeMonth (y m : Nat) : Nat :=
  let base : Nat :=
    match m with
    | 1 => 0
    | 2 => 31
    | 3 => 59
    | 4 => 90
    | 5 => 120
    | 6 => 151
    | 7 => 181
    | 8 => 212
    | 9 => 243
    | 10 => 273
    | 11 => 304
    | _ => 334
  if 3 ≤ m ∧ isLeap y then base + 1 else base

def daysInYear (y : Nat) : Nat := if isLeap y then 366 else 365

/-- Number of leap years strictly before year `y` (years `1 .. y-1`). -/
def leapsBefore (y : Nat) : Nat := (y - 1) / 4 + (y - 1) / 400 - (y - 1) / 100

/-- `date.toordinal()`: 0001-01-01 is day 1. -/
def toOrdinal (d : PyDate) : Nat :=
  365 * (d.year - 1) + leapsBefore d.year + daysBeforeMonth d.year d.month + d.day

theorem isLeap_iff (y : Nat) :
    isLeap y = true ↔ (y % 4 = 0 ∧ ¬ y % 100 = 0) ∨ y % 400 = 0 := by
  simp [isLeap, Bool.or_eq_true, Bool.and_eq_true, beq_iff_eq, bne_iff_ne]

theorem daysBeforeMonth_succ (y m : Nat) (h1 : 1 ≤ m) (h2 : m ≤ 11) :
    daysBeforeMonth y (m + 1) = daysBeforeMonth y m + daysInMonth y m := by
  cases hb : isLeap y <;> interval_cases m <;>
    simp [daysBeforeMonth, daysInMonth, hb]

theorem daysBeforeMonth_last (y : Nat) :
    daysBeforeMonth y 12 + daysInMonth y 12 = daysInYear y := by
  cases hb : isLeap y <;> simp [daysBeforeMonth, daysInMonth, daysInYear, hb]

theorem leapsBefore_succ (y : Nat) (hy : 1 ≤ y) :
    leapsBefore (y + 1) = leapsBefore y + (if isLeap y then 1 else 0) := by
  have hiff := isLeap_iff y
  cases hb : isLeap y
  · have h : ¬ ((y % 4 = 0 ∧ ¬ y % 100 = 0) ∨ y % 400 = 0) := by
      intro hc
      rw [hiff.mpr hc] at hb
      cases hb
    simp only [leapsBefore, hb, if_false, Bool.false_eq_true, Nat.add_sub_cancel]
    omega
  · have h := hiff.mp hb
    simp only [leapsBefore, hb, if_true, Nat.add_sub_cancel]
    omega

theorem leapsBefore_mono {y z : Nat} (h : y ≤ z) : leapsBefore y ≤ leapsBefore z := by
  induction z with
  | zero => simp_all [leapsBefore]
  | succ n ih =>
    rcases Nat.lt_or_ge y (n + 1) with hlt | hge
    · rcases Nat.eq_zero_or_pos n with rfl | hn
      · interval_cases y <;> simp [leapsBefore]
      · calc leapsBefore y ≤ leapsBefore n := ih (by omega)
          _ ≤ leapsBefore (n + 1) := by rw [leapsBefore_succ n hn]; split <;> omega
    · have : y = n + 1 := by omega
      subst this; exact Nat.le_refl _

theorem daysInMonth_pos (y m : Nat) : 1 ≤ daysInMonth y m := by
  unfold daysInMonth
  rcases m with _ | _ | _ | _ | _ | _ | _ | _ | _ | _ | _ | _ | m <;> simp <;> split <;> omega

theorem nextDay_valid {d : PyDate} (h : isValidDate d) : isValidDate (nextDay d) := by
  obtain ⟨hy, hm1, hm2, hd1, hd2⟩ := h
  unfold nextDay
  split
  · simp only [isValidDate]
    omega
  · split
    · have hp := daysInMonth_pos d.year (d.month + 1)
      simp only [isValidDate]
      omega
    · have h31 : daysInMonth (d.year + 1) 1 = 31 := rfl
      simp only [isValidDate]
      omega

theorem toOrdinal_nextDay {d : PyDate} (h : isValidDate d) :
    toOrdinal (nextDay d) = toOrdinal d + 1 := by
  obtain ⟨hy, hm1, hm2, hd1, hd2⟩ := h
  unfold nextDay
  split
  · simp only [toOrdinal]
    omega
  · rename_i hday
    split
    · rename_i hmon
      have hstep := daysBeforeMonth_succ d.year d.month hm1 (by omega)
      simp only [toOrdinal]
      omega
    · rename_i hmon
      have hm12 : d.month = 12 := by omega
      have hd31 : d.day = 31 := by
        have h31 : daysInMonth d.year d.month = 31 := by rw [hm12]; rfl
        omega
      have hlast := daysBeforeMonth_last d.year
      have hls := leapsBefore_succ d.year hy
      have hb1 : daysBeforeMonth (d.year + 1) 1 = 0 := by
        cases hb : isLeap (d.year + 1) <;> simp [daysBeforeMonth, hb]
      simp only [toOrdinal, hb1, hm12, hd31] at *
      unfold daysInYear at hlast
      cases hb : isLeap d.year <;> simp [hb] at hlast hls <;> omega

theorem addDays_valid {d : PyDate} (h : isValidDate d) (n : Nat) : isValidDate (addDays d n) := by
  induction n with
  | zero => exact h
  | succ k ih => exact nextDay_valid ih

theorem toOrdinal_addDays {d : PyDate} (h : isValidDate d) (n : Nat) :
    toOrdinal (addDays d n) = toOrdinal d + n := by
  induction n with
  | zero => rfl
  | succ k ih =>
    have hv := addDays_valid h k
    calc toOrdinal (addDays d (k + 1)) = toOrdinal (addDays d k) + 1 := toOrdinal_nextDay hv
      _ = toOrdinal d + (k + 1) := by omega

theorem daysBeforeMonth_add_le (y : Nat) : ∀ {m mm : Nat}, 1 ≤ m → m < mm → mm ≤ 12 →
    daysBeforeMonth y m + daysInMonth y m ≤ daysBeforeMonth y mm := by
  intro m mm
  induction mm with
  | zero => intro _ h _; omega
  | succ k ih =>
    intro h1 h h2
    rcases Nat.lt_or_ge m k with hk | hk
    · have hstep := daysBeforeMonth_succ y k (by omega) (by omega)
      have hrec := ih h1 hk (by omega)
      omega
    · have hmk : m = k := by omega
      subst hmk
      have hstep := daysBeforeMonth_succ y m h1 (by omega)
      omega

theorem daysBeforeMonth_day_le (y : Nat) {m day : Nat} (h1 : 1 ≤ m) (h2 : m ≤ 12)
    (hd : day ≤ daysInMonth y m) : daysBeforeMonth y m + day ≤ daysInYear y := by
  have hlast := daysBeforeMonth_last y
  rcases Nat.lt_or_ge m 12 with h | h
  · have hle := daysBeforeMonth_add_le y h1 h (Nat.le_refl 12)
    omega
  · have hm12 : m = 12 := by omega
    subst hm12
    omega

theorem toOrdinal_lt_of_year_lt {a b : PyDate} (ha : isValidDate a) (hb : isValidDate b)
    (h : a.year < b.year) : toOrdinal a < toOrdinal b := by
  obtain ⟨hay, ham1, ham2, had1, had2⟩ := ha
  obtain ⟨hby, hbm1, hbm2, hbd1, hbd2⟩ := hb
  have h1 : daysBeforeMonth a.year a.month + a.day ≤ daysInYear a.year :=
    daysBeforeMonth_day_le a.year ham1 ham2 had2
  have h2 := leapsBefore_succ a.year hay
  have h3 : leapsBefore (a.year + 1) ≤ leapsBefore b.year := leapsBefore_mono (by omega)
  unfold toOrdinal daysInYear at *
  cases hl : isLeap a.year <;> simp [hl] at h1 h2 <;> omega

theorem toOrdinal_lt_of_month_lt {a b : PyDate} (ha : isValidDate a) (hb : isValidDate b)
    (hy : a.year = b.year) (h : a.month < b.month) : toOrdinal a < toOrdinal b := by
  obtain ⟨hay, ham1, ham2, had1, had2⟩ := ha
  obtain ⟨hby, hbm1, hbm2, hbd1, hbd2⟩ := hb
  rw [← hy] at hbd2
  have h1 := daysBeforeMonth_add_le a.year ham1 h hbm2
  unfold toOrdinal
  rw [← hy]
  omega

theorem dateLe_iff_toOrdinal {a b : PyDate} (ha : isValidDate a) (hb : isValidDate b) :
    dateLe a b ↔ toOrdinal a ≤ toOrdinal b := by
  constructor
  · intro h
    rcases h with h | ⟨hy, h | ⟨hm, hd⟩⟩
    · exact le_of_lt (toOrdinal_lt_of_year_lt ha hb h)
    · exact le_of_lt (toOrdinal_lt_of_month_lt ha hb hy h)
    · unfold toOrdinal
      rw [hy, hm]
      omega
  · intro h
    by_contra hneg
    unfold dateLe at hneg
    have hstr : b.year < a.year ∨
        (b.year = a.year ∧ (b.month < a.month ∨ (b.month = a.month ∧ b.day < a.day))) := by
      omega
    rcases hstr with h' | ⟨hy, h' | ⟨hm, hd⟩⟩
    · exact absurd h (not_le.mpr (toOrdinal_lt_of_year_lt hb ha h'))
    · exact absurd h (not_le.mpr (toOrdinal_lt_of_month_lt hb ha hy h'))
    · have hlt : toOrdinal b < toOrdinal a := by
        unfold toOrdinal
        rw [hy, hm]
        omega
      exact absurd h (not_le.mpr hlt)

theorem addDays_mono {a b : PyDate} (ha : isValidDate a) (hb : isValidDate b)
    (h : dateLe a b) (n : Nat) : dateLe (addDays a n) (addDays b n) := by
  rw [dateLe_iff_toOrdinal (addDays_valid ha n) (addDays_valid hb n),
    toOrdinal_addDays ha n, toOrdinal_addDays hb n]
  exact Nat.add_le_add_right ((dateLe_iff_toOrdinal ha hb).mp h) n

theorem toOrdinal_inj {a b : PyDate} (ha : isValidDate a) (hb : isValidDate b)
    (h : toOrdinal a = toOrdinal b) : a = b := by
  have h1 := (dateLe_iff_toOrdinal ha hb).mpr (le_of_eq h)
  have h2 := (dateLe_iff_toOrdinal hb ha).mpr (le_of_eq h.symm)
  unfold dateLe at h1 h2
  cases a
  cases b
  simp only [PyDate.mk.injEq] at *
  omega

/-- Evaluate a concrete `addDays` through ordinals (the direct recursion is
too deep for kernel reduction). -/
theorem addDays_eq_of_toOrdinal {d e : PyDate} (hd : isValidDate d) (he : isValidDate e)
    (n : Nat) (h : toOrdinal d + n = toOrdinal e) : addDays d n = e :=
  toOrdinal_inj (addDays_valid hd n) he (by rw [toOrdinal_addDays hd n, h])

theorem addDays_2026_1_15_30 : addDays ⟨2026, 1, 15⟩ 30 = ⟨2026, 2, 14⟩ :=
  addDays_eq_of_toOrdinal (by decide) (by decide) 30 (by decide)

theorem addDays_2024_2_20_365 : addDays ⟨2024, 2, 20⟩ 365 = ⟨2025, 2, 19⟩ :=
  addDays_eq_of_toOrdinal (by decide) (by decide) 365 (by decide)

theorem addDays_2026_2_20_365 : addDays ⟨2026, 2, 20⟩ 365 = ⟨2027, 2, 20⟩ :=
  addDays_eq_of_toOrdinal (by decide) (by decide) 365 (by decide)

/-! ### Domain model (`models/recurring.py`, `models/expense.py`) -/

structure RecurringPayment where
  id : Nat
  user_id : Nat
  name : String
  amount : ℚ
  currency : String
  frequency : String
  next_due_date : PyDate
  remind_days_before : Nat
  active : Bool
deriving DecidableEq

structure Expense where
  id : Nat
  user_id : Nat
  type : String
  amount : ℚ
  currency : String
  category : String
  description : Option String
  date : PyDate
  raw_text : Option String
deriving DecidableEq

/-- `Expense.is_expense`. -/
def Expense.is_expense (e : Expense) : Bool := e.type == "expense"

/-! ### `repositories/recurring_repo.py` -/

/-- The `delta_map` of `RecurringRepository.advance_due_date`, in days:
`{"daily": timedelta(days=1), "weekly": timedelta(weeks=1),
  "monthly": timedelta(days=30), "yearly": timedelta(days=365)}`. -/
def delta_map : List (String × Nat) :=
  [("daily", 1), ("weekly", 7), ("monthly", 30), ("yearly", 365)]

/-- `RecurringRepository.advance_due_date`:
`new_date = payment.next_due_date + delta_map.get(payment.frequency, timedelta(days=30))`,
then `UPDATE recurring_payments SET next_due_date = new_date`. -/
def advance_due_date (p : RecurringPayment) : RecurringPayment :=
  { p with next_due_date := addDays p.next_due_date ((delta_map.lookup p.frequency).getD 30) }

/-- Ascending order on `next_due_date` (the `ORDER BY next_due_date ASC`). -/
def dueOrder (a b : RecurringPayment) : Prop := dateLe a.next_due_date b.next_due_date

instance : DecidableRel dueOrder := fun a b => by unfold dueOrder; infer_instance

instance : IsTotal RecurringPayment dueOrder := ⟨fun a b => dateLe_total _ _⟩

instance : IsTrans RecurringPayment dueOrder := ⟨fun _ _ _ => dateLe_trans⟩

/-- `RecurringRepository.get_due_soon(days_ahead)`:
`target_date = date.today() + timedelta(days=days_ahead)`;
`SELECT * WHERE active = TRUE AND next_due_date <= target ORDER BY next_due_date ASC`.
`today` is passed explicitly; `store` models the table contents. -/
def get_due_soon (store : List RecurringPayment) (today : PyDate) (days_ahead : Nat) :
    List RecurringPayment :=
  let target := addDays today days_ahead
  List.insertionSort dueOrder
    (store.filter fun p => p.active && dateLeB p.next_due_date target)

/-- `RecurringService.get_due_reminders`: `self.repo.get_due_soon(days_ahead=2)`. -/
def get_due_reminders (store : List RecurringPayment) (today : PyDate) :
    List RecurringPayment :=
  get_due_soon store today 2

/-! ### Fixtures for the concrete test points of the claims -/

def monthlyJan15 : RecurringPayment :=
  { id := 1, user_id := 1, name := "rent", amount := 800, currency := "EUR",
    frequency := "monthly", next_due_date := ⟨2026, 1, 15⟩,
    remind_days_before := 1, active := true }

def yearlyFeb2024 : RecurringPayment :=
  { id := 2, user_id := 1, name := "insurance", amount := 600, currency := "EUR",
    frequency := "yearly", next_due_date := ⟨2024, 2, 20⟩,
    remind_days_before := 1, active := true }

def pDueToday : RecurringPayment :=
  { id := 3, user_id := 1, name := "netflix", amount := 15, currency := "EUR",
    frequency := "monthly", next_due_date := ⟨2026, 3, 10⟩,
    remind_days_before := 1, active := true }

def pDueTwoDays : RecurringPayment :=
  { id := 4, user_id := 1, name := "gym", amount := 30, currency := "EUR",
    frequency := "monthly", next_due_date := ⟨2026, 3, 12⟩,
    remind_days_before := 1, active := true }

def pDueThreeDays : RecurringPayment :=
  { id := 5, user_id := 1, name := "spotify", amount := 10, currency := "EUR",
    frequency := "monthly", next_due_date := ⟨2026, 3, 13⟩,
    remind_days_before := 1, active := true }

def pInactiveDue : RecurringPayment :=
  { id := 6, user_id := 1, name := "gone", amount := 5, currency := "EUR",
    frequency := "monthly", next_due_date := ⟨2026, 3, 11⟩,
    remind_days_before := 1, active := false }

def dueFixtureStore : List RecurringPayment :=
  [pDueTwoDays, pDueThreeDays, pDueToday, pInactiveDue]

theorem advance_frequency_eq (p : RecurringPayment) (n : Nat)
    (h : (delta_map.lookup p.frequency).getD 30 = n) :
    (advance_due_date p).next_due_date = addDays p.next_due_date n := by
  simp [advance_due_date, h]

theorem mem_get_due_soon {p : RecurringPayment} {store : List RecurringPayment}
    {today : PyDate} {horizon : Nat} :
    p ∈ get_due_soon store today horizon ↔
      p ∈ store ∧ p.active = true ∧ dateLe p.next_due_date (addDays today horizon) := by
  unfold get_due_soon
  simp [List.mem_filter, dateLeB, and_assoc]

/-! ### Claims C1 - C3 -/

/-- C1, counterexample: advancing a monthly payment whose `next_due_date` is
2026-01-15 yields 2026-02-14 (a flat +30 days), not 2026-02-01 as claimed
(clamp-to-first is not what the code computes). -/
theorem advance_monthly_jan15_is_feb14 :
    (advance_due_date monthlyJan15).next_due_date = ⟨2026, 2, 14⟩ ∧
    (advance_due_date monthlyJan15).next_due_date ≠ ⟨2026, 2, 1⟩ := by
  have h1 := advance_frequency_eq monthlyJan15 30 rfl
  rw [h1, show monthlyJan15.next_due_date = ⟨2026, 1, 15⟩ from rfl, addDays_2026_1_15_30]
  exact ⟨rfl, by decide⟩

/-- C1, amended: for every recurring payment with frequency `monthly`, the
advance operation adds exactly 30 days to `next_due_date` (a flat
`timedelta(days=30)`, not a calendar month and not clamped to the 1st);
in particular 2026-01-15 advances to 2026-02-14. -/
theorem advance_monthly_adds_30_days (p : RecurringPayment)
    (hf : p.frequency = "monthly") (hv : isValidDate p.next_due_date) :
    (advance_due_date p).next_due_date = addDays p.next_due_date 30 ∧
    toOrdinal (advance_due_date p).next_due_date = toOrdinal p.next_due_date + 30 ∧
    (p.next_due_date = ⟨2026, 1, 15⟩ → (advance_due_date p).next_due_date = ⟨2026, 2, 14⟩) := by
  have h30 : ((delta_map.lookup p.frequency).getD 30) = 30 := by rw [hf]; rfl
  have h1 : (advance_due_date p).next_due_date = addDays p.next_due_date 30 := by
    simp [advance_due_date, h30]
  refine ⟨h1, ?_, ?_⟩
  · rw [h1]
    exact toOrdinal_addDays hv 30
  · intro hd
    rw [h1, hd]
    exact addDays_2026_1_15_30

theorem advance_monthly_adds_30_days_witness :
    (advance_due_date monthlyJan15).next_due_date = ⟨2026, 2, 14⟩ :=
  (advance_monthly_adds_30_days monthlyJan15 rfl (by decide)).2.2 rfl

/-- C2, counterexample: advancing a yearly payment due 2024-02-20 yields
2025-02-19 (a flat +365 days across the 2024 leap day), not 2025-02-20:
month and day are not preserved for every starting date. -/
theorem advance_yearly_feb2024_drifts :
    (advance_due_date yearlyFeb2024).next_due_date = ⟨2025, 2, 19⟩ ∧
    (advance_due_date yearlyFeb2024).next_due_date ≠ ⟨2025, 2, 20⟩ := by
  have h1 := advance_frequency_eq yearlyFeb2024 365 rfl
  rw [h1, show yearlyFeb2024.next_due_date = ⟨2024, 2, 20⟩ from rfl, addDays_2024_2_20_365]
  exact ⟨rfl, by decide⟩

/-- C2, amended: for every recurring payment with frequency `yearly`, the
advance operation adds exactly 365 days to `next_due_date` (which preserves
month and day only when no Feb 29 lies in the interval); in particular
2026-02-20 advances to 2027-02-20. -/
theorem advance_yearly_adds_365_days (p : RecurringPayment)
    (hf : p.frequency = "yearly") (hv : isValidDate p.next_due_date) :
    (advance_due_date p).next_due_date = addDays p.next_due_date 365 ∧
    toOrdinal (advance_due_date p).next_due_date = toOrdinal p.next_due_date + 365 ∧
    (p.next_due_date = ⟨2026, 2, 20⟩ → (advance_due_date p).next_due_date = ⟨2027, 2, 20⟩) := by
  have h365 : ((delta_map.lookup p.frequency).getD 30) = 365 := by rw [hf]; rfl
  have h1 : (advance_due_date p).next_due_date = addDays p.next_due_date 365 := by
    simp [advance_due_date, h365]
  refine ⟨h1, ?_, ?_⟩
  · rw [h1]
    exact toOrdinal_addDays hv 365
  · intro hd
    rw [h1, hd]
    exact addDays_2026_2_20_365

theorem advance_yearly_adds_365_days_witness :
    (advance_due_date { yearlyFeb2024 with next_due_date := ⟨2026, 2, 20⟩ }).next_due_date
      = ⟨2027, 2, 20⟩ :=
  (advance_yearly_adds_365_days { yearlyFeb2024 with next_due_date := ⟨2026, 2, 20⟩ }
    rfl (by decide)).2.2 rfl

/-- C3: `get_due_soon` returns exactly the active stored payments whose
`next_due_date` is at most `today + horizon` days (same multiset, and
membership characterised), in ascending `next_due_date` order; with horizon 2
it includes a payment due today and one due in 2 days and excludes one due in
3 days and an inactive one. -/
theorem get_due_soon_spec (store : List RecurringPayment) (today : PyDate) (horizon : Nat) :
    List.Perm (get_due_soon store today horizon)
      (store.filter fun p => p.active && dateLeB p.next_due_date (addDays today horizon)) ∧
    (∀ p, p ∈ get_due_soon store today horizon ↔
      p ∈ store ∧ p.active = true ∧ dateLe p.next_due_date (addDays today horizon)) ∧
    (get_due_soon store today horizon).Sorted dueOrder ∧
    get_due_soon dueFixtureStore ⟨2026, 3, 10⟩ 2 = [pDueToday, pDueTwoDays] := by
  exact ⟨List.perm_insertionSort _ _, fun p => mem_get_due_soon,
    List.sorted_insertionSort _ _, by decide⟩

/-! ### `services/budget_service.py` threshold logic -/

inductive Tier
  | safe
  | warning
  | exceeded
deriving DecidableEq

/-- `get_budget_status` percentage: `pct = (spent / limit * 100) if limit > 0 else 0`. -/
def statusPct (spent limit : ℚ) : ℚ := if 0 < limit then spent / limit * 100 else 0

/-- `get_budget_status` classification of a percentage:
`if pct >= 100` exceeded, `elif pct >= 80` warning, `else` safe. -/
def statusTier (pct : ℚ) : Tier :=
  if 100 ≤ pct then .exceeded else if 80 ≤ pct then .warning else .safe

/-- `check_budget_alert` percentage for one budget:
`pct = (spent / limit_amount * 100) if limit_amount > 0 else 0`. -/
def alertPct (spent limit_amount : ℚ) : ℚ :=
  if 0 < limit_amount then spent / limit_amount * 100 else 0

/-- `check_budget_alert` outcome for one budget: an exceeded alert is appended
when `pct >= 100`, a warning alert when `80 <= pct < 100`, otherwise nothing. -/
def alertFor (spent limit_amount : ℚ) : Option Tier :=
  if 100 ≤ alertPct spent limit_amount then some .exceeded
  else if 80 ≤ alertPct spent limit_amount then some .warning
  else none

theorem statusTier_eq_exceeded_iff (pct : ℚ) : statusTier pct = .exceeded ↔ 100 ≤ pct := by
  unfold statusTier
  split_ifs with h1 h2 <;> simp [h1]

theorem statusTier_eq_warning_iff (pct : ℚ) :
    statusTier pct = .warning ↔ 80 ≤ pct ∧ pct < 100 := by
  unfold statusTier
  split_ifs with h1 h2
  · exact iff_of_false (by simp) fun hc => absurd h1 (not_le.mpr hc.2)
  · exact iff_of_true rfl ⟨h2, lt_of_not_le h1⟩
  · exact iff_of_false (by simp) fun hc => absurd hc.1 h2

theorem statusTier_eq_safe_iff (pct : ℚ) : statusTier pct = .safe ↔ pct < 80 := by
  unfold statusTier
  split_ifs with h1 h2
  · exact iff_of_false (by simp) fun hc => absurd h1 (not_le.mpr (by linarith))
  · exact iff_of_false (by simp) fun hc => absurd h2 (not_le.mpr hc)
  · exact iff_of_true rfl (lt_of_not_le h2)

theorem alertFor_eq_exceeded_iff (s l : ℚ) :
    alertFor s l = some .exceeded ↔ 100 ≤ alertPct s l := by
  unfold alertFor
  split_ifs with h1 h2 <;> simp [h1]

theorem alertFor_eq_warning_iff (s l : ℚ) :
    alertFor s l = some .warning ↔ 80 ≤ alertPct s l ∧ alertPct s l < 100 := by
  unfold alertFor
  split_ifs with h1 h2
  · exact iff_of_false (by simp) fun hc => absurd h1 (not_le.mpr hc.2)
  · exact iff_of_true rfl ⟨h2, lt_of_not_le h1⟩
  · exact iff_of_false (by simp) fun hc => absurd hc.1 h2

theorem alertFor_eq_none_iff (s l : ℚ) : alertFor s l = none ↔ alertPct s l < 80 := by
  unfold alertFor
  split_ifs with h1 h2
  · exact iff_of_false (by simp) fun hc => absurd h1 (not_le.mpr (by linarith))
  · exact iff_of_false (by simp) fun hc => absurd h2 (not_le.mpr hc)
  · exact iff_of_true rfl (lt_of_not_le h2)

/-! ### Claims C4 - C5 -/

/-- C4: for every positive limit and non-negative spend, the classification
used by `get_budget_status` and `check_budget_alert` is Exceeded exactly when
`spend/limit >= 1`, Warning exactly when `0.8 <= spend/limit < 1`, and Safe
exactly when `spend/limit < 0.8`; limit 200 gives Safe at spend 150, Warning
at 170 and Exceeded at 210. -/
theorem budget_tier_thresholds (spend limit : ℚ) (hl : 0 < limit) (hs : 0 ≤ spend) :
    (statusTier (statusPct spend limit) = Tier.exceeded ↔ 1 ≤ spend / limit) ∧
    (statusTier (statusPct spend limit) = Tier.warning ↔
      0.8 ≤ spend / limit ∧ spend / limit < 1) ∧
    (statusTier (statusPct spend limit) = Tier.safe ↔ spend / limit < 0.8) ∧
    (alertFor spend limit = some Tier.exceeded ↔ 1 ≤ spend / limit) ∧
    (alertFor spend limit = some Tier.warning ↔
      0.8 ≤ spend / limit ∧ spend / limit < 1) ∧
    (alertFor spend limit = none ↔ spend / limit < 0.8) ∧
    statusTier (statusPct 150 200) = Tier.safe ∧
    statusTier (statusPct 170 200) = Tier.warning ∧
    statusTier (statusPct 210 200) = Tier.exceeded := by
  have hp : statusPct spend limit = spend / limit * 100 := if_pos hl
  have ha : alertPct spend limit = spend / limit * 100 := if_pos hl
  have c150 : statusPct 150 200 = 75 := by norm_num [statusPct]
  have c170 : statusPct 170 200 = 85 := by norm_num [statusPct]
  have c210 : statusPct 210 200 = 105 := by norm_num [statusPct]
  refine ⟨?_, ?_, ?_, ?_, ?_, ?_, ?_, ?_, ?_⟩
  · rw [hp, statusTier_eq_exceeded_iff]
    constructor <;> intro h <;> linarith
  · rw [hp, statusTier_eq_warning_iff]
    constructor <;> intro h <;> exact ⟨by linarith [h.1], by linarith [h.2]⟩
  · rw [hp, statusTier_eq_safe_iff]
    constructor <;> intro h <;> linarith
  · rw [alertFor_eq_exceeded_iff, ha]
    constructor <;> intro h <;> linarith
  · rw [alertFor_eq_warning_iff, ha]
    constructor <;> intro h <;> exact ⟨by linarith [h.1], by linarith [h.2]⟩
  · rw [alertFor_eq_none_iff, ha]
    constructor <;> intro h <;> linarith
  · rw [c150, statusTier_eq_safe_iff]
    norm_num
  · rw [c170, statusTier_eq_warning_iff]
    norm_num
  · rw [c210, statusTier_eq_exceeded_iff]
    norm_num

theorem budget_tier_thresholds_witness :
    statusTier (statusPct 170 200) = Tier.warning :=
  (budget_tier_thresholds 170 200 (by norm_num) (by norm_num)).2.2.2.2.2.2.2.1

/-- C5: with a configured limit of 0 the percentage is 0 and the category is
classified Safe in `get_budget_status`, and `check_budget_alert` raises no
alert, for every spend; there is no division (the `limit > 0` guard short
circuits); in particular limit 0 with spend 50 is Safe at 0%. -/
theorem budget_zero_limit_safe (spend : ℚ) :
    statusPct spend 0 = 0 ∧
    statusTier (statusPct spend 0) = Tier.safe ∧
    alertPct spend 0 = 0 ∧
    alertFor spend 0 = none ∧
    statusPct 50 0 = 0 ∧
    statusTier (statusPct 50 0) = Tier.safe ∧
    alertFor 50 0 = none := by
  have h1 : statusPct spend 0 = 0 := if_neg (by norm_num)
  have h2 : alertPct spend 0 = 0 := if_neg (by norm_num)
  have h3 : statusPct 50 0 = 0 := if_neg (by norm_num)
  have h4 : alertPct 50 0 = 0 := if_neg (by norm_num)
  refine ⟨h1, ?_, h2, ?_, h3, ?_, ?_⟩
  · rw [h1, statusTier_eq_safe_iff]
    norm_num
  · rw [alertFor_eq_none_iff, h2]
    norm_num
  · rw [h3, statusTier_eq_safe_iff]
    norm_num
  · rw [alertFor_eq_none_iff, h4]
    norm_num

/-! ### Month-window boundary (claim C6)

The expression `date(y, m + 1, 1) - timedelta(days=1) if m < 12 else
date(y, 12, 31)` appears verbatim in `BudgetService.get_budget_status`,
`BudgetService.check_budget_alert`, `ExpenseService.get_month_summary`,
`ExpenseService.get_category_details`, `ExpenseService.compare_months`,
`ExportService.export_month_csv` and `ExportService.export_month_excel`;
it is modelled once. -/

def monthEnd (y m : Nat) : PyDate :=
  if m < 12 then subDays ⟨y, m + 1, 1⟩ 1 else ⟨y, 12, 31⟩

/-- Spec-side definition: the first day of the month after `(y, m)`. -/
def firstOfNextMonth (y m : Nat) : PyDate :=
  if m < 12 then ⟨y, m + 1, 1⟩ else ⟨y + 1, 1, 1⟩

/-- C6: for every year and month `1..12` the month-end boundary is the last
day of that month, equals the first day of the next month minus one day, and
the December case is `date(y, 12, 31)` with no year overflow; in particular
2026-02 ends on 2026-02-28 and 2026-12 on 2026-12-31. -/
theorem monthEnd_spec (y m : Nat) (h1 : 1 ≤ m) (h2 : m ≤ 12) :
    monthEnd y m = ⟨y, m, daysInMonth y m⟩ ∧
    monthEnd y m = subDays (firstOfNextMonth y m) 1 ∧
    monthEnd 2026 2 = ⟨2026, 2, 28⟩ ∧
    monthEnd 2026 12 = ⟨2026, 12, 31⟩ := by
  refine ⟨?_, ?_, by decide, by decide⟩
  · unfold monthEnd
    split
    · show prevDay ⟨y, m + 1, 1⟩ = ⟨y, m, daysInMonth y m⟩
      unfold prevDay
      rw [if_neg (by simp), if_pos (by simp; omega)]
      simp
    · have hm : m = 12 := by omega
      subst hm
      rfl
  · unfold monthEnd firstOfNextMonth
    split
    · rfl
    · show (⟨y, 12, 31⟩ : PyDate) = prevDay ⟨y + 1, 1, 1⟩
      unfold prevDay
      rw [if_neg (by simp), if_neg (by simp)]
      simp

theorem monthEnd_spec_witness : monthEnd 2026 2 = ⟨2026, 2, 28⟩ :=
  (monthEnd_spec 2026 2 (by norm_num) (by norm_num)).2.2.1

/-! ### Parser boundary and `ExpenseService.add_from_text` (claim C7)

`parse_transaction` returns either a dict with an `"error"` key (and usually a
`"question"`), or a data dict.  A missing field models a `KeyError`, and the
amount / date conversions may fail (`float(...)` / `date.fromisoformat(...)`
raising `ValueError`); all three are caught by the service's
`except (KeyError, ValueError)` handler. -/

/-- A JSON number-or-string as it may appear in the `"amount"` field;
`float()` always succeeds on a number and may fail on a string. -/
inductive JNum where
  | num (q : ℚ)
  | str (s : String)
deriving DecidableEq

/-- Split a character list on a separator character (the semantics of
Python's `str.split(sep)` / Lean's `String.splitOn` for a one-character
separator, written on `List Char` so that it evaluates by kernel
reduction). -/
def splitChar (sep : Char) (l : List Char) : List (List Char) :=
  l.foldr
    (fun c acc =>
      if c = sep then [] :: acc
      else
        match acc with
        | h :: t => (c :: h) :: t
        | [] => [[c]])
    [[]]

/-- Python `str.strip()`: drop whitespace from both ends. -/
def trimChars (l : List Char) : List Char :=
  ((l.dropWhile Char.isWhitespace).reverse.dropWhile Char.isWhitespace).reverse

/-- Python `str.lower()` on the inputs at stake (ASCII letters; the Arabic
frequency words contain no cased letters). -/
def asciiToLower (c : Char) : Char :=
  if 'A' ≤ c ∧ c ≤ 'Z' then Char.ofNat (c.toNat + 32) else c

/-- Decimal digit-string value; `none` on any non-digit character. -/
def decDigits (l : List Char) : Option Nat :=
  l.foldl
    (fun acc c =>
      match acc with
      | none => none
      | some n => if c.isDigit then some (n * 10 + (c.toNat - 48)) else none)
    (some 0)

/-- `float(s)` on the digits-and-dot fragment that can reach it here
(scientific notation, signs and whitespace are not modelled: the service and
handler inputs at stake are plain digit strings). -/
def parseFloatQ (s : String) : Option ℚ :=
  match splitChar '.' s.data with
  | [w] =>
      if w.isEmpty then none
      else (decDigits w).map fun n => (n : ℚ)
  | [w, f] =>
      if w.isEmpty && f.isEmpty then none
      else
        match decDigits w, decDigits f with
        | some wn, some fn => some ((wn : ℚ) + (fn : ℚ) / (10 : ℚ) ^ f.length)
        | _, _ => none
  | _ => none

/-- `float()` applied to a parsed JSON value. -/
def pyFloat : JNum → Option ℚ
  | .num q => some q
  | .str s => parseFloatQ s

/-- `date.fromisoformat` on the canonical `YYYY-MM-DD` format. -/
def parseIsoDate (s : String) : Option PyDate :=
  match splitChar '-' s.data with
  | [ys, ms, ds] =>
      if ys.length == 4 && ms.length == 2 && ds.length == 2 then
        match decDigits ys, decDigits ms, decDigits ds with
        | some y, some mo, some d =>
            if isValidDate ⟨y, mo, d⟩ then some ⟨y, mo, d⟩ else none
        | _, _, _ => none
      else none
  | _ => none

/-- Output of `parse_transaction` as consumed by `add_from_text`. -/
inductive ParsedTx where
  | err (error : String) (question : Option String)
  | data (typ : Option String) (amount : Option JNum) (category : Option String)
      (description : Option String) (dateStr : Option String)
deriving DecidableEq

/-- The two-shape result dict of `add_from_text`. -/
structure AddResult where
  success : Bool
  message : Option String
  question : Option String
  category : Option String
deriving DecidableEq

/-- The success confirmation text (abridged: the numeral/emoji formatting of
the Arabic f-string is not modelled; no claim concerns the message body). -/
def renderAddMessage (e : Expense) : String :=
  "تم تسجيل " ++ e.type ++ ": " ++ e.category

/-- The `except (KeyError, ValueError)` branch of `add_from_text`. -/
def addValidationFailure (store : List Expense) : AddResult × List Expense :=
  ({ success := false, message := none,
     question := some "حصل مشكلة في البيانات. حاول تاني بصيغة مختلفة.",
     category := none }, store)

/-- `ExpenseService.add_from_text`: on an `"error"` result return the parser's
question (default `"حاول تاني."`) with no write; otherwise build the
`Expense` (category defaults to `"أخرى"`), persist it, and return a success
result; `KeyError` / `ValueError` during construction yields the validation
failure message with no write. -/
def add_from_text (user : Nat) (text : String) (parsed : ParsedTx)
    (store : List Expense) : AddResult × List Expense :=
  match parsed with
  | .err _ q =>
      ({ success := false, message := none,
         question := some (q.getD "حاول تاني."), category := none }, store)
  | .data typ amount category description dateStr =>
      match typ, amount, dateStr with
      | some t, some a, some ds =>
          match pyFloat a, parseIsoDate ds with
          | some amt, some dt =>
              let e : Expense :=
                { id := store.length + 1, user_id := user, type := t, amount := amt,
                  currency := "EUR", category := category.getD "أخرى",
                  description := description, date := dt, raw_text := some text }
              ({ success := true, message := some (renderAddMessage e),
                 question := none, category := some e.category }, store ++ [e])
          | _, _ => addValidationFailure store
      | _, _, _ => addValidationFailure store

/-- C7: when the parser returns an `"error"` record carrying a clarifying
question, `add_from_text` returns exactly that question as a failure result
and leaves the transaction store unchanged (no row written). -/
theorem add_from_text_unclear_no_write (user : Nat) (text errKind q : String)
    (store : List Expense) :
    add_from_text user text (.err errKind (some q)) store =
      ({ success := false, message := none, question := some q, category := none },
        store) := rfl

/-! ### `repositories/expense_repo.py` aggregates and `services/export_service.py` -/

/-- Strict chronological order on dates. -/
def dateLt (a b : PyDate) : Prop :=
  a.year < b.year ∨ (a.year = b.year ∧ (a.month < b.month ∨ (a.month = b.month ∧ a.day < b.day)))

instance : DecidableRel dateLt := fun a b => by unfold dateLt; infer_instance

theorem PyDate.eq_iff {a b : PyDate} :
    a = b ↔ a.year = b.year ∧ a.month = b.month ∧ a.day = b.day := by
  constructor
  · intro h
    subst h
    exact ⟨rfl, rfl, rfl⟩
  · intro ⟨h1, h2, h3⟩
    cases a
    cases b
    simp_all

/-- The row filter of `get_by_date_range`:
`WHERE user_id = %s AND date BETWEEN %s AND %s` (both ends inclusive). -/
def expenseInRange (user : Nat) (start stop : PyDate) (e : Expense) : Bool :=
  e.user_id == user && (dateLeB start e.date && dateLeB e.date stop)

/-- `ORDER BY date DESC, id DESC`. -/
def txOrder (a b : Expense) : Prop :=
  dateLt b.date a.date ∨ (a.date = b.date ∧ b.id ≤ a.id)

instance : DecidableRel txOrder := fun a b => by unfold txOrder; infer_instance

instance : IsTotal Expense txOrder :=
  ⟨fun a b => by unfold txOrder dateLt; simp only [PyDate.eq_iff]; omega⟩

instance : IsTrans Expense txOrder :=
  ⟨fun a b c hab hbc => by unfold txOrder dateLt at *; simp only [PyDate.eq_iff] at *; omega⟩

/-- `ExpenseRepository.get_by_date_range` (no type filter). -/
def get_by_date_range (store : List Expense) (user : Nat) (start stop : PyDate) :
    List Expense :=
  List.insertionSort txOrder (store.filter (expenseInRange user start stop))

/-- Total spent in `rows` on category `c` (the `SUM(amount)` of one group). -/
def catTotal (rows : List Expense) (c : String) : ℚ :=
  ((rows.filter fun e => e.category == c).map (·.amount)).sum

/-- `ORDER BY total DESC` on `(category, total)` pairs. -/
def totalDesc (a b : String × ℚ) : Prop := b.2 ≤ a.2

instance : DecidableRel totalDesc := fun a b => by unfold totalDesc; infer_instance

instance : IsTotal (String × ℚ) totalDesc := ⟨fun a b => le_total b.2 a.2⟩

instance : IsTrans (String × ℚ) totalDesc := ⟨fun _ _ _ hab hbc => le_trans hbc hab⟩

/-- The row set of `get_category_summary`:
`WHERE user_id = %s AND type = 'expense' AND date BETWEEN %s AND %s`. -/
def summaryRows (store : List Expense) (user : Nat) (start stop : PyDate) : List Expense :=
  store.filter fun e => expenseInRange user start stop e && e.type == "expense"

/-- `ExpenseRepository.get_category_summary`:
`SELECT category, SUM(amount) ... GROUP BY category ORDER BY total DESC`
(groups are materialised in first-occurrence order before sorting). -/
def get_category_summary (store : List Expense) (user : Nat) (start stop : PyDate) :
    List (String × ℚ) :=
  List.insertionSort totalDesc
    ((((summaryRows store user start stop).map fun e => e.category).dedup).map
      fun c => (c, catTotal (summaryRows store user start stop) c))

def pad2 (n : Nat) : String := if n < 10 then "0" ++ toString n else toString n

def pad4 (n : Nat) : String :=
  if n < 10 then "000" ++ toString n
  else if n < 100 then "00" ++ toString n
  else if n < 1000 then "0" ++ toString n
  else toString n

/-- `date.isoformat()`. -/
def isoFormat (d : PyDate) : String :=
  pad4 d.year ++ "-" ++ pad2 d.month ++ "-" ++ pad2 d.day

/-- One row of the exported sheet (the dict built in `export_month_excel` /
`export_month_csv`). -/
structure ExportRow where
  dateStr : String
  typeLabel : String
  amount : ℚ
  currency : String
  category : String
  descr : String
deriving DecidableEq

def toExportRow (e : Expense) : ExportRow :=
  { dateStr := isoFormat e.date,
    typeLabel := if e.is_expense then "مصروف" else "دخل",
    amount := e.amount,
    currency := e.currency,
    category := e.category,
    descr := e.description.getD "" }

/-- The data rows of `export_month_excel`: every transaction (expense and
income) of the month window, projected. -/
def export_month_rows (store : List Expense) (user y m : Nat) : List ExportRow :=
  (get_by_date_range store user ⟨y, m, 1⟩ (monthEnd y m)).map toExportRow

/-- `df.groupby("الفئة")["المبلغ"].sum()`: pandas groups by key (sorted
ascending) and sums the amount column. -/
def groupSumByCategory (rows : List ExportRow) : List (String × ℚ) :=
  (List.insertionSort (· ≤ ·) ((rows.map (·.category)).dedup)).map
    fun c => (c, ((rows.filter fun r => r.category == c).map (·.amount)).sum)

/-- The summary sheet of `export_month_excel`. -/
def export_summary_sheet (store : List Expense) (user y m : Nat) : List (String × ℚ) :=
  groupSumByCategory (export_month_rows store user y m)

theorem typeLabel_expense (e : Expense) :
    ((toExportRow e).typeLabel == "مصروف") = (e.type == "expense") := by
  cases h : e.type == "expense" <;>
    simp [toExportRow, Expense.is_expense, h]

theorem export_expense_rows (store : List Expense) (user y m : Nat) :
    (export_month_rows store user y m).filter (fun r => r.typeLabel == "مصروف")
      = ((get_by_date_range store user ⟨y, m, 1⟩ (monthEnd y m)).filter
          fun e => e.type == "expense").map toExportRow := by
  unfold export_month_rows
  rw [List.filter_map]
  congr 1
  apply List.filter_congr
  intro e _
  exact typeLabel_expense e

theorem groupSum_map_rows (rows : List Expense) :
    groupSumByCategory (rows.map toExportRow)
      = (List.insertionSort (· ≤ ·) ((rows.map fun e => e.category).dedup)).map
          fun c => (c, catTotal rows c) := by
  unfold groupSumByCategory
  have hkeys : ((rows.map toExportRow).map fun r => r.category)
      = rows.map fun e => e.category := by
    rw [List.map_map]
    rfl
  rw [hkeys]
  apply List.map_congr_left
  intro c _
  have hflt : ((rows.map toExportRow).filter fun r => r.category == c)
      = (rows.filter fun e => e.category == c).map toExportRow := by
    rw [List.filter_map]
    rfl
  rw [hflt, List.map_map]
  rfl

theorem groupSum_perm {l l2 : List ExportRow} (h : List.Perm l l2) :
    List.Perm (groupSumByCategory l) (groupSumByCategory l2) := by
  unfold groupSumByCategory
  have hkeys : List.Perm ((l.map fun r => r.category).dedup)
      ((l2.map fun r => r.category).dedup) := ((h.map _).dedup)
  have htot : ∀ c : String,
      ((l.filter fun r => r.category == c).map fun r => r.amount).sum
        = ((l2.filter fun r => r.category == c).map fun r => r.amount).sum :=
    fun c => ((h.filter _).map _).sum_eq
  refine ((List.perm_insertionSort _ _).map _).trans (.trans ((hkeys.map _)) ?_)
  have heq : ((l2.map fun r => r.category).dedup).map
        (fun c => (c, ((l.filter fun r => r.category == c).map fun r => r.amount).sum))
      = ((l2.map fun r => r.category).dedup).map
        (fun c => (c, ((l2.filter fun r => r.category == c).map fun r => r.amount).sum)) :=
    List.map_congr_left fun c _ => by rw [htot c]
  rw [heq]
  exact ((List.perm_insertionSort _ _).map _).symm

/-! ### Claim C8 -/

/-- A store holding a single income transaction inside the 2026-03 window. -/
def incomeOnlyStore : List Expense :=
  [{ id := 1, user_id := 1, type := "income", amount := 100, currency := "EUR",
     category := "راتب", description := none, date := ⟨2026, 3, 5⟩, raw_text := none }]

/-- C8, counterexample: the export includes income rows, which
`get_category_summary` excludes (`type = 'expense'`); with one income row of
category `"راتب"` amount 100 in the window, re-summing the export's rows per
category gives `("راتب", 100)` while the live summary is empty, so the
round trip does not preserve the aggregate. -/
theorem export_roundtrip_fails_on_income :
    export_summary_sheet incomeOnlyStore 1 2026 3 = [("راتب", 100)] ∧
    get_category_summary incomeOnlyStore 1 ⟨2026, 3, 1⟩ (monthEnd 2026 3) = [] ∧
    ¬ List.Perm (export_summary_sheet incomeOnlyStore 1 2026 3)
        (get_category_summary incomeOnlyStore 1 ⟨2026, 3, 1⟩ (monthEnd 2026 3)) := by
  have hrange : get_by_date_range incomeOnlyStore 1 ⟨2026, 3, 1⟩ (monthEnd 2026 3)
      = incomeOnlyStore := by decide
  have h1 : export_summary_sheet incomeOnlyStore 1 2026 3 = [("راتب", 100)] := by
    unfold export_summary_sheet export_month_rows
    rw [hrange]
    simp [groupSumByCategory, incomeOnlyStore, toExportRow, Expense.is_expense,
      List.insertionSort, List.orderedInsert]
  have hrows : summaryRows incomeOnlyStore 1 ⟨2026, 3, 1⟩ (monthEnd 2026 3) = [] := by decide
  have h2 : get_category_summary incomeOnlyStore 1 ⟨2026, 3, 1⟩ (monthEnd 2026 3) = [] := by
    unfold get_category_summary
    rw [hrows]
    rfl
  refine ⟨h1, h2, ?_⟩
  intro hperm
  rw [h1, h2] at hperm
  have := hperm.length_eq
  simp at this

/-- C8, amended: grouping the *expense* rows of the month's export by
category and summing their amounts yields exactly the per-category totals of
`get_category_summary` on the same month window (as a multiset of
`(category, total)` pairs; the two sides order groups differently: pandas by
key ascending, the SQL by total descending). -/
theorem export_expense_roundtrip (store : List Expense) (user y m : Nat) :
    List.Perm
      (groupSumByCategory ((export_month_rows store user y m).filter
        fun r => r.typeLabel == "مصروف"))
      (get_category_summary store user ⟨y, m, 1⟩ (monthEnd y m)) := by
  rw [export_expense_rows store user y m]
  have hGF : List.Perm
      ((get_by_date_range store user ⟨y, m, 1⟩ (monthEnd y m)).filter
        fun e => e.type == "expense")
      (summaryRows store user ⟨y, m, 1⟩ (monthEnd y m)) := by
    unfold get_by_date_range summaryRows
    refine ((List.perm_insertionSort _ _).filter _).trans ?_
    rw [List.filter_filter]
    have : (store.filter fun e =>
        (e.type == "expense") && expenseInRange user ⟨y, m, 1⟩ (monthEnd y m) e)
        = store.filter fun e =>
          expenseInRange user ⟨y, m, 1⟩ (monthEnd y m) e && e.type == "expense" :=
      List.filter_congr fun e _ => Bool.and_comm _ _
    rw [this]
  refine (groupSum_perm (hGF.map _)).trans ?_
  rw [groupSum_map_rows]
  unfold get_category_summary
  refine ((List.perm_insertionSort _ _).map _).trans ?_
  exact (List.perm_insertionSort _ _).symm

/-! ### `main.py` daily reminder job (claim C9)

`send_reminders` iterates the due payments; for each one inside a
`try`/`except` it first composes and sends the reminder message, then
evaluates `if payment.next_due_date <= asyncio.get_event_loop().time():`.
That compares a `datetime.date` against the event loop's `float` clock,
which in Python always raises `TypeError`; the per-payment `except` catches
and logs it, so `advance_due_date` is never reached. -/

inductive PyErr where
  | typeError
  | attributeError
deriving DecidableEq

/-- A Python runtime value appearing in the guard comparison. -/
inductive PyVal where
  | vDate (d : PyDate)
  | vFloat (q : ℚ)
deriving DecidableEq

/-- Python `a <= b` on these values: defined within one type, `TypeError`
across `date`/`float` (neither side's rich-comparison slot accepts the
other, so CPython raises). -/
def pyLe : PyVal → PyVal → Except PyErr Bool
  | .vDate a, .vDate b => .ok (dateLeB a b)
  | .vFloat a, .vFloat b => .ok (decide (a ≤ b))
  | _, _ => .error .typeError

/-- Observable outcome of one `send_reminders` run: the table contents after
the run, the ids messaged, the ids whose due date was advanced, and the
names for which the `except` handler logged an error. -/
structure ReminderRun where
  store : List RecurringPayment
  sent : List Nat
  advanced : List Nat
  errorsLogged : List String
deriving DecidableEq

/-- The repository `UPDATE recurring_payments SET next_due_date = %s WHERE
id = %s` triggered by `advance_due_date(payment)`. -/
def advanceInStore (store : List RecurringPayment) (p : RecurringPayment) :
    List RecurringPayment :=
  store.map fun q =>
    if q.id == p.id then { q with next_due_date := (advance_due_date p).next_due_date } else q

/-- One iteration of the `for payment in due_payments` loop: the message is
sent, then the date-vs-float guard is evaluated; `.ok true` would advance,
`.ok false` would skip, and an exception is caught and logged. -/
def processReminder (loopTime : ℚ) (acc : ReminderRun) (p : RecurringPayment) : ReminderRun :=
  let acc1 := { acc with sent := acc.sent ++ [p.id] }
  match pyLe (.vDate p.next_due_date) (.vFloat loopTime) with
  | .ok true =>
      { acc1 with store := advanceInStore acc1.store p, advanced := acc1.advanced ++ [p.id] }
  | .ok false => acc1
  | .error _ => { acc1 with errorsLogged := acc1.errorsLogged ++ [p.name] }

/-- `send_reminders`: fetch the due payments and process each. -/
def send_reminders (store : List RecurringPayment) (today : PyDate) (loopTime : ℚ) :
    ReminderRun :=
  (get_due_reminders store today).foldl (processReminder loopTime) ⟨store, [], [], []⟩

theorem processReminder_eq (loopTime : ℚ) (acc : ReminderRun) (p : RecurringPayment) :
    processReminder loopTime acc p =
      { acc with sent := acc.sent ++ [p.id],
                 errorsLogged := acc.errorsLogged ++ [p.name] } := rfl

theorem foldl_processReminder (loopTime : ℚ) (due : List RecurringPayment) :
    ∀ acc : ReminderRun,
      (due.foldl (processReminder loopTime) acc).store = acc.store ∧
      (due.foldl (processReminder loopTime) acc).advanced = acc.advanced ∧
      (due.foldl (processReminder loopTime) acc).sent
        = acc.sent ++ due.map (fun p => p.id) ∧
      (due.foldl (processReminder loopTime) acc).errorsLogged
        = acc.errorsLogged ++ due.map (fun p => p.name) := by
  induction due with
  | nil => intro acc; simp
  | cons p due ih =>
      intro acc
      rw [List.foldl_cons, processReminder_eq]
      obtain ⟨h1, h2, h3, h4⟩ := ih
        { acc with sent := acc.sent ++ [p.id],
                   errorsLogged := acc.errorsLogged ++ [p.name] }
      refine ⟨h1, h2, ?_, ?_⟩
      · rw [h3]
        simp
      · rw [h4]
        simp

/-- C9: the reminder guard compares `next_due_date` (a date) with the event
loop's float clock, which always raises `TypeError`; the per-payment handler
catches it and logs, so a run sends a message and logs an error for every
due payment, never advances any due date, leaves the store unchanged, and
the same due payments are selected again on any later run day. -/
theorem send_reminders_never_advances (store : List RecurringPayment) (today : PyDate)
    (loopTime : ℚ) :
    (∀ (p : RecurringPayment) (t : ℚ),
      pyLe (.vDate p.next_due_date) (.vFloat t) = .error .typeError) ∧
    (send_reminders store today loopTime).store = store ∧
    (send_reminders store today loopTime).advanced = [] ∧
    (send_reminders store today loopTime).sent
      = (get_due_reminders store today).map (fun p => p.id) ∧
    (send_reminders store today loopTime).errorsLogged
      = (get_due_reminders store today).map (fun p => p.name) ∧
    get_due_reminders (send_reminders store today loopTime).store today
      = get_due_reminders store today ∧
    (∀ (p : RecurringPayment) (later : PyDate),
      isValidDate today → isValidDate later → dateLe today later →
      p ∈ get_due_reminders store today →
      p ∈ get_due_reminders (send_reminders store today loopTime).store later) := by
  obtain ⟨h1, h2, h3, h4⟩ :=
    foldl_processReminder loopTime (get_due_reminders store today) ⟨store, [], [], []⟩
  have hstore : (send_reminders store today loopTime).store = store := h1
  refine ⟨fun p t => rfl, hstore, h2, by rw [send_reminders, h3]; simp,
    by rw [send_reminders, h4]; simp, by rw [hstore], ?_⟩
  intro p later hvt hvl hle hmem
  rw [hstore]
  unfold get_due_reminders at *
  obtain ⟨hin, hact, hdue⟩ := mem_get_due_soon.mp hmem
  exact mem_get_due_soon.mpr
    ⟨hin, hact, dateLe_trans hdue (addDays_mono hvt hvl hle 2)⟩

theorem send_reminders_never_advances_witness :
    pDueToday ∈ get_due_reminders
      (send_reminders dueFixtureStore ⟨2026, 3, 10⟩ 1000).store ⟨2026, 3, 11⟩ :=
  (send_reminders_never_advances dueFixtureStore ⟨2026, 3, 10⟩ 1000).2.2.2.2.2.2
    pDueToday ⟨2026, 3, 11⟩ (by decide) (by decide) (by decide) (by decide)

/-! ### Missing attributes (claim C10)

`ExpenseService.search_transactions` calls `self.repo.search_by_text`,
`ExpenseService.get_balance` calls `self.repo.get_overall_balance`, and the
structured path of `add_recurring_command` calls
`recurring_service.add_manual`; none of those attributes is defined anywhere
in the codebase, so the attribute access raises `AttributeError`. -/

/-- The method names actually defined on `ExpenseRepository`
(`repositories/expense_repo.py`). -/
def expenseRepositoryMethods : List String :=
  ["add", "get_by_id", "get_by_date_range", "get_category_summary",
   "get_monthly_total", "get_by_category", "update", "delete", "_row_to_expense"]

/-- The method names actually defined on `RecurringService`
(`services/recurring_service.py`). -/
def recurringServiceMethods : List String :=
  ["add_from_text", "list_active", "delete_payment", "toggle_payment",
   "get_due_reminders", "advance_due_date"]

/-- Python attribute access plus call, `obj.name(...)`: looking up a name the
class does not define raises `AttributeError` before anything runs. -/
def callMethod (methods : List String) (name : String) (run : Unit → α) : Except PyErr α :=
  if name ∈ methods then .ok (run ()) else .error .attributeError

/-- `ExpenseService.search_transactions`: its first statement is
`self.repo.search_by_text(user_id, query)`; the body after that lookup is
unreachable, so its result text is not modelled. -/
def search_transactions (store : List Expense) (user : Nat) (query : String) :
    Except PyErr String :=
  callMethod expenseRepositoryMethods "search_by_text" fun _ => ""

/-- `ExpenseService.get_balance`: its first statement is
`self.repo.get_overall_balance(user_id)`; the rest is unreachable. -/
def get_balance (store : List Expense) (user : Nat) : Except PyErr String :=
  callMethod expenseRepositoryMethods "get_overall_balance" fun _ => ""

/-- The `_AR_DIGITS` translation table (Arabic-Indic digits to ASCII). -/
def arDigitToLatin (c : Char) : Char :=
  if c = '٠' then '0' else if c = '١' then '1' else if c = '٢' then '2'
  else if c = '٣' then '3' else if c = '٤' then '4' else if c = '٥' then '5'
  else if c = '٦' then '6' else if c = '٧' then '7' else if c = '٨' then '8'
  else if c = '٩' then '9' else c

/-- `amount_str.translate(_AR_DIGITS)` followed by
`re.sub(r"[^\d.]", "", amount_str)` (keep digits and dots). -/
def stripNonAmount (l : List Char) : List Char :=
  (l.map arDigitToLatin).filter fun c => c.isDigit || c == '.'

/-- `_FREQ_MAP`. -/
def _FREQ_MAP : List (String × String) :=
  [("يومي", "daily"), ("يوم", "daily"), ("daily", "daily"),
   ("أسبوعي", "weekly"), ("اسبوعي", "weekly"), ("أسبوع", "weekly"), ("weekly", "weekly"),
   ("شهري", "monthly"), ("شهر", "monthly"), ("monthly", "monthly"),
   ("سنوي", "yearly"), ("سنة", "yearly"), ("yearly", "yearly")]

/-- `_calc_next_due`: daily `today + 1 day`, weekly `today + 1 week`, monthly
`today + relativedelta(months=1, day=1)` (the first of the next month),
yearly `today + relativedelta(years=1)` (same date next year, day clamped),
default as monthly. -/
def _calc_next_due (frequency : String) (today : PyDate) : PyDate :=
  if frequency == "daily" then addDays today 1
  else if frequency == "weekly" then addDays today 7
  else if frequency == "monthly" then firstOfNextMonth today.year today.month
  else if frequency == "yearly" then
    ⟨today.year + 1, today.month, min today.day (daysInMonth (today.year + 1) today.month)⟩
  else firstOfNextMonth today.year today.month

structure ParsedManual where
  name : String
  amount : ℚ
  frequency : String
  next_due_date : PyDate
deriving DecidableEq

/-- `_parse_manual` (`handlers/recurring_handler.py`): split on `|`, strip
parts, need at least 3; amount from digit translation + stripping +
`float()`; frequency via `_FREQ_MAP` on the lowercased third part; optional
ISO date in the fourth part, else `_calc_next_due`. -/
def _parse_manual (text : String) (today : PyDate) : Option ParsedManual :=
  let parts := (splitChar '|' text.data).map trimChars
  if parts.length < 3 then none
  else
    let name := String.mk (parts.getD 0 [])
    let amount_str := stripNonAmount (parts.getD 1 [])
    if amount_str.isEmpty then none
    else
      match parseFloatQ (String.mk amount_str) with
      | none => none
      | some amount =>
          match _FREQ_MAP.lookup (String.mk ((parts.getD 2 []).map asciiToLower)) with
          | none => none
          | some frequency =>
              let fourth := parts.getD 3 []
              let next_due :=
                if 4 ≤ parts.length ∧ fourth ≠ [] then
                  match parseIsoDate (String.mk fourth) with
                  | some d => d
                  | none => _calc_next_due frequency today
                else _calc_next_due frequency today
              some ⟨name, amount, frequency, next_due⟩

/-- `add_recurring_command`: with no arguments reply with the usage help
(abridged here); otherwise join the arguments, try `_parse_manual`, and on a
structured parse call `recurring_service.add_manual(...)`; on a failed parse
fall back to the AI path `add_from_text` (that reply is summarised as a
constant since no claim concerns its text). -/
def add_recurring_command (args : List String) (today : PyDate) : Except PyErr String :=
  if args.isEmpty then .ok "usage-help"
  else
    match _parse_manual (String.intercalate " " args) today with
    | some _ => callMethod recurringServiceMethods "add_manual" fun _ => "added"
    | none => .ok "ai-fallback"

/-- C10: `search_transactions` and `get_balance` always raise
`AttributeError` (for every store, user and query), and so does the
structured pipe-format success path of `add_recurring_command`, because
`search_by_text`, `get_overall_balance` and `add_manual` are not defined
anywhere; none of these operations can return a successful result. -/
theorem missing_methods_raise_attribute_error :
    (∀ (store : List Expense) (user : Nat) (query : String),
      search_transactions store user query = .error .attributeError) ∧
    (∀ (store : List Expense) (user : Nat),
      get_balance store user = .error .attributeError) ∧
    (∀ (args : List String) (today : PyDate) (p : ParsedManual),
      args ≠ [] →
      _parse_manual (String.intercalate " " args) today = some p →
      add_recurring_command args today = .error .attributeError) := by
  refine ⟨fun store user query => ?_, fun store user => ?_, fun args today p hne hp => ?_⟩
  · unfold search_transactions callMethod
    rw [if_neg (by decide)]
  · unfold get_balance callMethod
    rw [if_neg (by decide)]
  · unfold add_recurring_command
    cases args with
    | nil => exact absurd rfl hne
    | cons a l =>
        rw [if_neg (by simp), hp]
        unfold callMethod
        rw [if_neg (by decide)]

theorem missing_methods_witness :
    add_recurring_command ["netflix", "|", "15", "|", "monthly"] ⟨2026, 3, 10⟩
      = .error .attributeError :=
  missing_methods_raise_attribute_error.2.2 ["netflix", "|", "15", "|", "monthly"]
    ⟨2026, 3, 10⟩ ⟨"netflix", 15, "monthly", ⟨2026, 4, 1⟩⟩ (by decide) (by decide)

end BotBudget
